import Mathlib

/-!
The Action layer of ton-msig (`src/ton-msig/Action.hpp`).

A shallow embedding of the action classes of the multisig client: the base
class `ActionBase` with its default methods, the class template `Action<R>`
with its final `handle_error`, the five domain entities and the nine concrete
operations.  Machine integers are natural numbers; the width of each field is
recorded next to it.  Virtual dispatch is a match over `AnyAction`, one
alternative per concrete class (every concrete class is `final`).
-/

namespace app

/-! ## Types of the libraries the header relies on -/

/-- Modelled from the spec: `td::Status` (declared in the td library, not in
these sources): either success or an error carrying a code and a message. -/
inductive Status where
  | OK
  | Error (code : Int) (message : String)
  deriving DecidableEq, Repr

/-- Mirror of `td::Status::is_error`. -/
def Status.is_error : Status → Bool
  | Status.OK => false
  | Status.Error _ _ => true

/-- Mirror of `td::Status::move_as_error`: the status itself, moved. -/
def Status.move_as_error (s : Status) : Status := s

/-- One outcome handed to a result consumer: a value of the result type or an
error status, never both. -/
inductive Outcome (R : Type) where
  | value (r : R)
  | error (e : Status)
  deriving DecidableEq, Repr

/-- Modelled from the spec: `td::Promise<R>` (declared in the td library, not in
these sources), the single-use result consumer an action carries.  The
embedding keeps the outcomes the action has handed to the consumer, oldest
first; each of `set_value` and `set_error` hands over exactly one outcome. -/
structure Promise (R : Type) where
  delivered : List (Outcome R)
  deriving DecidableEq, Repr

/-- Mirror of `td::Promise<R>::set_value`: hand a result value to the consumer. -/
def Promise.set_value {R : Type} (p : Promise R) (r : R) : Promise R :=
  { delivered := p.delivered ++ [Outcome.value r] }

/-- Mirror of `td::Promise<R>::set_error`: hand an error to the consumer. -/
def Promise.set_error {R : Type} (p : Promise R) (e : Status) : Promise R :=
  { delivered := p.delivered ++ [Outcome.error e] }

/-- Modelled from the spec: `vm::Cell` behind `td::Ref` (declared in the ledger
library, not in these sources): a node of the binary cell tree, with its data
bits and its child cells. -/
inductive Cell where
  | mk (bits : List Bool) (refs : List Cell)

/-- Modelled from the spec: `td::Ed25519::PrivateKey` (declared in the td
library, not in these sources): the key octets. -/
structure PrivateKey where
  octets : List Nat

/-- Modelled from the spec: `block::StdAddress` (declared in the ledger
library, not in these sources): workchain and 256-bit account id. -/
structure StdAddress where
  workchain : Int
  addr : Nat
  deriving DecidableEq, Repr

/-- Modelled from the spec: `ftabi::ParamRef` (declared in the ABI library, not
in these sources): a named, typed parameter of a function signature. -/
structure ParamRef where
  name : String
  type : String
  deriving DecidableEq, Repr

/-- Modelled from the spec: `ftabi::ValueRef` (declared in the ABI library, not
in these sources), a raw value returned by the ledger: a scalar (integer of any
width up to 257 bits, boolean, address), a structured value, or a sequence. -/
inductive Value where
  | int (v : Int)
  | bool (b : Bool)
  | address (a : StdAddress)
  | tuple (fields : List Value)
  | array (items : List Value)

/-- The value of `std::numeric_limits<td::uint32>::max()`. -/
def UINT32_MAX : Nat := 4294967295

/-! ## `ActionBase` and `Action<R>` -/

/-- Default body of `ActionBase::handle_prepared`: `return td::Status::OK();`.
The action is returned next to the status, untouched. -/
def ActionBase.handle_prepared {A : Type} (self : A) (_message : Cell) : Status × A :=
  (Status.OK, self)

/-- Default body of `ActionBase::created_at`: `return 0u;` (a `td::uint64`). -/
def ActionBase.created_at {A : Type} (_self : A) : Nat := 0

/-- Default body of `ActionBase::expires_at`:
`return std::numeric_limits<td::uint32>::max();`. -/
def ActionBase.expires_at {A : Type} (_self : A) : Nat := UINT32_MAX

/-- The class template `Action<R>`: its single data member is the promise. -/
structure Action (R : Type) where
  promise : Promise R

/-- Body of `Action<R>::handle_error`, declared `final`:
`promise.set_error(error.move_as_error());`. -/
def Action.handle_error {R : Type} (self : Action R) (error : Status) : Action R :=
  { promise := self.promise.set_error error.move_as_error }

namespace msig

/-! ## Domain entities -/

/-- The struct `Parameters`. -/
structure Parameters where
  /-- Field of type `td::uint8`. -/
  max_queued_transactions : Nat
  /-- Field of type `td::uint8`. -/
  max_custodian_count : Nat
  /-- Field of type `td::uint64`. -/
  expiration_time : Nat
  /-- Field of type `td::BigInt256`. -/
  min_value : Int
  /-- Field of type `td::uint8`. -/
  required_txn_confirms : Nat
  deriving DecidableEq, Repr

/-- The struct `Transaction`. -/
structure Transaction where
  /-- Field of type `td::uint64`. -/
  id : Nat
  /-- Field of type `td::uint32`. -/
  confirmationMask : Nat
  /-- Field of type `td::uint8`. -/
  signsRequired : Nat
  /-- Field of type `td::uint8`. -/
  signsReceived : Nat
  /-- Field of type `td::BigInt256`. -/
  creator : Int
  /-- Field of type `td::uint8`. -/
  index : Nat
  /-- Field of type `block::StdAddress`. -/
  dest : StdAddress
  /-- Field of type `td::BigInt256`. -/
  value : Int
  /-- Field of type `td::uint16`. -/
  sendFlags : Nat
  /-- Field of type `bool`. -/
  bounce : Bool
  deriving DecidableEq, Repr

/-- The struct `Custodian`. -/
structure Custodian where
  /-- Field of type `td::uint8`. -/
  index : Nat
  /-- Field of type `td::BigInt256`. -/
  pubkey : Int
  deriving DecidableEq, Repr

/-- The struct `TransactionSent`. -/
structure TransactionSent where
  /-- Field of type `td::uint64`. -/
  transactionId : Nat
  deriving DecidableEq, Repr

/-- The struct `Confirmation`. -/
structure Confirmation where
  confirmed : Bool
  deriving DecidableEq, Repr

/-! ## The nine concrete operations -/

/-- The class `Constructor final : Action<std::nullopt_t>`. -/
structure Constructor extends Action Unit where
  force_local_ : Bool
  /-- Field of type `td::uint64`. -/
  time_ : Nat
  /-- Field of type `td::uint32`. -/
  expire_ : Nat
  owners_ : List Int
  /-- Field of type `td::uint8`. -/
  req_confirms_ : Nat
  private_key_ : PrivateKey
  msg_info_path_ : Option String

/-- The class `SubmitTransaction final : Action<TransactionSent>`. -/
structure SubmitTransaction extends Action TransactionSent where
  force_local_ : Bool
  /-- Field of type `td::uint64`. -/
  time_ : Nat
  /-- Field of type `td::uint32`. -/
  expire_ : Nat
  dest_ : StdAddress
  value_ : Int
  bounce_ : Bool
  all_balance_ : Bool
  payload_ : Cell
  private_key_ : PrivateKey
  msg_info_path_ : Option String

/-- The class `ConfirmTransaction final : Action<std::nullopt_t>`. -/
structure ConfirmTransaction extends Action Unit where
  force_local_ : Bool
  /-- Field of type `td::uint64`. -/
  time_ : Nat
  /-- Field of type `td::uint32`. -/
  expire_ : Nat
  /-- Field of type `td::uint64`. -/
  transaction_id_ : Nat
  private_key_ : PrivateKey
  msg_info_path_ : Option String

/-- The class `IsConfirmed final : Action<Confirmation>`. -/
structure IsConfirmed extends Action Confirmation where
  /-- Field of type `td::uint32`. -/
  mask_ : Nat
  /-- Field of type `td::uint8`. -/
  index_ : Nat

/-- The class `GetParameters final : Action<Parameters>`. -/
structure GetParameters extends Action Parameters

/-- The class `GetTransaction final : Action<Transaction>`. -/
structure GetTransaction extends Action Transaction where
  /-- Field of type `td::uint64`. -/
  transaction_id_ : Nat

/-- The class `GetTransactions final : Action<std::vector<Transaction>>`. -/
structure GetTransactions extends Action (List Transaction)

/-- The class `GetTransactionIds final : Action<std::vector<td::uint64>>`. -/
structure GetTransactionIds extends Action (List Nat)

/-- The class `GetCustodians final : Action<std::vector<Custodian>>`. -/
structure GetCustodians extends Action (List Custodian)

/-! ### Methods with a body in the header -/

/-- Body of `Constructor::output_type`: `return {};`. -/
def Constructor.output_type : List ParamRef := []

/-- Body of `Constructor::created_at`: `return time_;`. -/
def Constructor.created_at (self : Constructor) : Nat := self.time_

/-- Body of `Constructor::expires_at`: `return expire_;`. -/
def Constructor.expires_at (self : Constructor) : Nat := self.expire_

/-- Body of `Constructor::is_get_method`: `return force_local_;`. -/
def Constructor.is_get_method (self : Constructor) : Bool := self.force_local_

/-- Body of `SubmitTransaction::created_at`: `return time_;`. -/
def SubmitTransaction.created_at (self : SubmitTransaction) : Nat := self.time_

/-- Body of `SubmitTransaction::expires_at`: `return expire_;`. -/
def SubmitTransaction.expires_at (self : SubmitTransaction) : Nat := self.expire_

/-- Body of `SubmitTransaction::is_get_method`: `return force_local_;`. -/
def SubmitTransaction.is_get_method (self : SubmitTransaction) : Bool := self.force_local_

/-- Body of `ConfirmTransaction::output_type`: `return {};`. -/
def ConfirmTransaction.output_type : List ParamRef := []

/-- Body of `ConfirmTransaction::created_at`: `return time_;`. -/
def ConfirmTransaction.created_at (self : ConfirmTransaction) : Nat := self.time_

/-- Body of `ConfirmTransaction::expires_at`: `return expire_;`. -/
def ConfirmTransaction.expires_at (self : ConfirmTransaction) : Nat := self.expire_

/-- Body of `ConfirmTransaction::is_get_method`: `return force_local_;`. -/
def ConfirmTransaction.is_get_method (self : ConfirmTransaction) : Bool := self.force_local_

/-- Body of `IsConfirmed::is_get_method`: `return true;`. -/
def IsConfirmed.is_get_method (_self : IsConfirmed) : Bool := true

/-- Body of `GetParameters::is_get_method`: `return true;`. -/
def GetParameters.is_get_method (_self : GetParameters) : Bool := true

/-- Body of `GetTransaction::is_get_method`: `return true;`. -/
def GetTransaction.is_get_method (_self : GetTransaction) : Bool := true

/-- Body of `GetTransactions::is_get_method`: `return true;`. -/
def GetTransactions.is_get_method (_self : GetTransactions) : Bool := true

/-- Body of `GetTransactionIds::is_get_method`: `return true;`. -/
def GetTransactionIds.is_get_method (_self : GetTransactionIds) : Bool := true

/-- Body of `GetCustodians::is_get_method`: `return true;`. -/
def GetCustodians.is_get_method (_self : GetCustodians) : Bool := true

/-! ### Virtual dispatch -/

/-- An object of static type `ActionBase`: exactly one of the nine concrete
classes, each of which is declared `final`. -/
inductive AnyAction where
  | ofConstructor (a : Constructor)
  | ofSubmitTransaction (a : SubmitTransaction)
  | ofConfirmTransaction (a : ConfirmTransaction)
  | ofIsConfirmed (a : IsConfirmed)
  | ofGetParameters (a : GetParameters)
  | ofGetTransaction (a : GetTransaction)
  | ofGetTransactions (a : GetTransactions)
  | ofGetTransactionIds (a : GetTransactionIds)
  | ofGetCustodians (a : GetCustodians)

/-- Virtual call of `is_get_method()`: pure in `ActionBase`, defined by each of
the nine classes. -/
def AnyAction.is_get_method : AnyAction → Bool
  | AnyAction.ofConstructor a => a.is_get_method
  | AnyAction.ofSubmitTransaction a => a.is_get_method
  | AnyAction.ofConfirmTransaction a => a.is_get_method
  | AnyAction.ofIsConfirmed a => a.is_get_method
  | AnyAction.ofGetParameters a => a.is_get_method
  | AnyAction.ofGetTransaction a => a.is_get_method
  | AnyAction.ofGetTransactions a => a.is_get_method
  | AnyAction.ofGetTransactionIds a => a.is_get_method
  | AnyAction.ofGetCustodians a => a.is_get_method

/-- Virtual call of `created_at()`: the three mutating classes define it, the
six read-only classes inherit the body of `ActionBase`. -/
def AnyAction.created_at : AnyAction → Nat
  | AnyAction.ofConstructor a => a.created_at
  | AnyAction.ofSubmitTransaction a => a.created_at
  | AnyAction.ofConfirmTransaction a => a.created_at
  | AnyAction.ofIsConfirmed a => ActionBase.created_at a
  | AnyAction.ofGetParameters a => ActionBase.created_at a
  | AnyAction.ofGetTransaction a => ActionBase.created_at a
  | AnyAction.ofGetTransactions a => ActionBase.created_at a
  | AnyAction.ofGetTransactionIds a => ActionBase.created_at a
  | AnyAction.ofGetCustodians a => ActionBase.created_at a

/-- Virtual call of `expires_at()`: the three mutating classes define it, the
six read-only classes inherit the body of `ActionBase`. -/
def AnyAction.expires_at : AnyAction → Nat
  | AnyAction.ofConstructor a => a.expires_at
  | AnyAction.ofSubmitTransaction a => a.expires_at
  | AnyAction.ofConfirmTransaction a => a.expires_at
  | AnyAction.ofIsConfirmed a => ActionBase.expires_at a
  | AnyAction.ofGetParameters a => ActionBase.expires_at a
  | AnyAction.ofGetTransaction a => ActionBase.expires_at a
  | AnyAction.ofGetTransactions a => ActionBase.expires_at a
  | AnyAction.ofGetTransactionIds a => ActionBase.expires_at a
  | AnyAction.ofGetCustodians a => ActionBase.expires_at a

/-- Virtual call of `handle_error(error)`: `Action<R>::handle_error` is `final`,
so every one of the nine classes runs that one body on its own promise and
leaves its other members alone. -/
def AnyAction.handle_error : AnyAction → Status → AnyAction
  | AnyAction.ofConstructor a, e =>
      AnyAction.ofConstructor { a with toAction := a.toAction.handle_error e }
  | AnyAction.ofSubmitTransaction a, e =>
      AnyAction.ofSubmitTransaction { a with toAction := a.toAction.handle_error e }
  | AnyAction.ofConfirmTransaction a, e =>
      AnyAction.ofConfirmTransaction { a with toAction := a.toAction.handle_error e }
  | AnyAction.ofIsConfirmed a, e =>
      AnyAction.ofIsConfirmed { a with toAction := a.toAction.handle_error e }
  | AnyAction.ofGetParameters a, e =>
      AnyAction.ofGetParameters { a with toAction := a.toAction.handle_error e }
  | AnyAction.ofGetTransaction a, e =>
      AnyAction.ofGetTransaction { a with toAction := a.toAction.handle_error e }
  | AnyAction.ofGetTransactions a, e =>
      AnyAction.ofGetTransactions { a with toAction := a.toAction.handle_error e }
  | AnyAction.ofGetTransactionIds a, e =>
      AnyAction.ofGetTransactionIds { a with toAction := a.toAction.handle_error e }
  | AnyAction.ofGetCustodians a, e =>
      AnyAction.ofGetCustodians { a with toAction := a.toAction.handle_error e }

/-- The bodies of the three `handle_prepared` overrides.  The header declares
them (`Constructor`, `SubmitTransaction`, `ConfirmTransaction`) and their
bodies lie outside it, so they are taken as given. -/
structure PreparedOverrides where
  ofConstructor : Constructor → Cell → Status × Constructor
  ofSubmitTransaction : SubmitTransaction → Cell → Status × SubmitTransaction
  ofConfirmTransaction : ConfirmTransaction → Cell → Status × ConfirmTransaction

/-- Virtual call of `handle_prepared(message)`: the three mutating classes
override it, the six read-only classes inherit the body of `ActionBase`. -/
def AnyAction.handle_prepared (ov : PreparedOverrides) : AnyAction → Cell → Status × AnyAction
  | AnyAction.ofConstructor a, m =>
      ((ov.ofConstructor a m).1, AnyAction.ofConstructor (ov.ofConstructor a m).2)
  | AnyAction.ofSubmitTransaction a, m =>
      ((ov.ofSubmitTransaction a m).1, AnyAction.ofSubmitTransaction (ov.ofSubmitTransaction a m).2)
  | AnyAction.ofConfirmTransaction a, m =>
      ((ov.ofConfirmTransaction a m).1, AnyAction.ofConfirmTransaction (ov.ofConfirmTransaction a m).2)
  | AnyAction.ofIsConfirmed a, m =>
      ((ActionBase.handle_prepared a m).1, AnyAction.ofIsConfirmed (ActionBase.handle_prepared a m).2)
  | AnyAction.ofGetParameters a, m =>
      ((ActionBase.handle_prepared a m).1, AnyAction.ofGetParameters (ActionBase.handle_prepared a m).2)
  | AnyAction.ofGetTransaction a, m =>
      ((ActionBase.handle_prepared a m).1, AnyAction.ofGetTransaction (ActionBase.handle_prepared a m).2)
  | AnyAction.ofGetTransactions a, m =>
      ((ActionBase.handle_prepared a m).1, AnyAction.ofGetTransactions (ActionBase.handle_prepared a m).2)
  | AnyAction.ofGetTransactionIds a, m =>
      ((ActionBase.handle_prepared a m).1, AnyAction.ofGetTransactionIds (ActionBase.handle_prepared a m).2)
  | AnyAction.ofGetCustodians a, m =>
      ((ActionBase.handle_prepared a m).1, AnyAction.ofGetCustodians (ActionBase.handle_prepared a m).2)

/-! ### Result handlers

The bodies of the `handle_result` methods are defined outside the header; the
ones below follow the specification of the Action contract. -/

/-- Modelled from the spec: the failure status a result handler returns when the
raw values cannot be decoded (the statuses are built outside the header). -/
def decode_error : Status := Status.Error 0 "decode error"

/-- Population count of a confirmation mask: the number of set bits among the 32
bits of the `td::uint32` member. -/
def popcount (mask : Nat) : Nat :=
  ((List.range 32).filter (fun i => mask.testBit i)).length

/-- Modelled from the spec: reading a raw value as an unsigned integer of the
given width (the conversion is part of the ABI library).  A value that is not
an integer, or an integer outside the range of the width, is a decode failure. -/
def decode_uint (bits : Nat) : Value → Option Nat
  | Value.int v => if 0 ≤ v ∧ v < ((2 ^ bits : Nat) : Int) then some v.toNat else none
  | _ => none

/-- Modelled from the spec: reading a raw value as a `td::BigInt256`, a signed
integer of 257 bits. -/
def decode_bigint256 : Value → Option Int
  | Value.int v => if -((2 ^ 256 : Nat) : Int) ≤ v ∧ v < ((2 ^ 256 : Nat) : Int) then some v else none
  | _ => none

/-- Modelled from the spec: reading a raw value as a boolean. -/
def decode_bool : Value → Option Bool
  | Value.bool b => some b
  | _ => none

/-- Modelled from the spec: reading a raw value as an address. -/
def decode_address : Value → Option StdAddress
  | Value.address a => some a
  | _ => none

/-- The invariant the data model states for a `Transaction`:
`signsReceived == popcount(confirmationMask)` and
`signsReceived ≤ signsRequired`. -/
def Transaction.invariant (t : Transaction) : Bool :=
  t.signsReceived == popcount t.confirmationMask && decide (t.signsReceived ≤ t.signsRequired)

/-- Modelled from the spec: decoding one structured raw value into a
`Transaction` (the body lies outside the header).  The structured value holds
the ten members in declaration order; a wrong shape, an out-of-range number or
a violated entity invariant is a decode failure, and nothing is decoded in
part. -/
def decode_transaction : Value → Option Transaction
  | Value.tuple [id, mask, required, received, creator, index, dest, value, flags, bounce] =>
      match decode_uint 64 id, decode_uint 32 mask, decode_uint 8 required,
            decode_uint 8 received, decode_bigint256 creator, decode_uint 8 index,
            decode_address dest, decode_bigint256 value, decode_uint 16 flags,
            decode_bool bounce with
      | some id, some mask, some required, some received, some creator, some index,
        some dest, some value, some flags, some bounce =>
          let t : Transaction :=
            { id := id, confirmationMask := mask, signsRequired := required,
              signsReceived := received, creator := creator, index := index,
              dest := dest, value := value, sendFlags := flags, bounce := bounce }
          if t.invariant then some t else none
      | _, _, _, _, _, _, _, _, _, _ => none
  | _ => none

/-- Modelled from the spec: decoding a sequence of structured raw values, in
the order returned; one failing entry fails the whole sequence. -/
def decode_transactions : List Value → Option (List Transaction)
  | [] => some []
  | v :: vs =>
      match decode_transaction v with
      | none => none
      | some t =>
          match decode_transactions vs with
          | none => none
          | some ts => some (t :: ts)

/-- Modelled from the spec: `SubmitTransaction::handle_result` (the body lies
outside the header).  The assigned id is the single scalar among the returned
values; zero or several values, a value that is not an integer, or one outside
the range of the `td::uint64` member is a decode failure. -/
def SubmitTransaction.handle_result (self : SubmitTransaction) (result : List Value) :
    Status × SubmitTransaction :=
  match result with
  | [v] =>
      match decode_uint 64 v with
      | some id =>
          (Status.OK, { self with promise := self.promise.set_value { transactionId := id } })
      | none => (decode_error, self)
  | _ => (decode_error, self)

/-- Modelled from the spec: `IsConfirmed::handle_result` (the body lies outside
the header): a single boolean test value becomes the `Confirmation`. -/
def IsConfirmed.handle_result (self : IsConfirmed) (result : List Value) :
    Status × IsConfirmed :=
  match result with
  | [v] =>
      match decode_bool v with
      | some b => (Status.OK, { self with promise := self.promise.set_value { confirmed := b } })
      | none => (decode_error, self)
  | _ => (decode_error, self)

/-- Modelled from the spec: `GetTransaction::handle_result` (the body lies
outside the header): one structured value becomes the `Transaction`. -/
def GetTransaction.handle_result (self : GetTransaction) (result : List Value) :
    Status × GetTransaction :=
  match result with
  | [v] =>
      match decode_transaction v with
      | some t => (Status.OK, { self with promise := self.promise.set_value t })
      | none => (decode_error, self)
  | _ => (decode_error, self)

/-- Modelled from the spec: `GetTransactions::handle_result` (the body lies
outside the header): the single returned value is a sequence of structured
values, which becomes the sequence of `Transaction` in the same order. -/
def GetTransactions.handle_result (self : GetTransactions) (result : List Value) :
    Status × GetTransactions :=
  match result with
  | [Value.array items] =>
      match decode_transactions items with
      | some ts => (Status.OK, { self with promise := self.promise.set_value ts })
      | none => (decode_error, self)
  | _ => (decode_error, self)

/-- Modelled from the spec: the raw values the ledger returns when the
contract's `isConfirmed` get-method is evaluated locally on `(mask, index)`
(the contract and the dispatcher lie outside these sources): one boolean,
telling whether bit `index` of `mask` is set. -/
def Ledger.isConfirmed (mask index : Nat) : List Value :=
  [Value.bool (mask.testBit index)]

/-- The local run of an `IsConfirmed` action: the ledger evaluates the
get-method on the two members of the action and the action handles the raw
values returned. -/
def IsConfirmed.run_local (self : IsConfirmed) : Status × IsConfirmed :=
  self.handle_result (Ledger.isConfirmed self.mask_ self.index_)

/-- A transaction is delivered by `GetTransaction::handle_result` on the given
raw values when the handler hands it to the promise. -/
def GetTransaction.delivers (self : GetTransaction) (result : List Value) (t : Transaction) : Prop :=
  (self.handle_result result).2.promise = self.promise.set_value t

/-- A transaction is delivered by `GetTransactions::handle_result` on the given
raw values when it is a member of the sequence the handler hands to the
promise. -/
def GetTransactions.delivers (self : GetTransactions) (result : List Value) (t : Transaction) : Prop :=
  ∃ ts : List Transaction, (self.handle_result result).2.promise = self.promise.set_value ts ∧ t ∈ ts

/-! ### Sample values -/

/-- A raw structured value as the ledger returns it for a transaction with
confirmation mask `0b0101` and two signatures received. -/
def sample_raw_transaction : Value :=
  Value.tuple [Value.int 7, Value.int 5, Value.int 2, Value.int 2, Value.int 11, Value.int 0,
    Value.address { workchain := 0, addr := 1 }, Value.int 1000, Value.int 3, Value.bool true]

/-- The transaction `sample_raw_transaction` decodes to. -/
def sample_transaction : Transaction :=
  { id := 7, confirmationMask := 5, signsRequired := 2, signsReceived := 2, creator := 11,
    index := 0, dest := { workchain := 0, addr := 1 }, value := 1000, sendFlags := 3,
    bounce := true }

/-- A `GetTransaction` action whose promise has not been used. -/
def sample_get_transaction : GetTransaction :=
  { promise := { delivered := [] }, transaction_id_ := 7 }

/-- A `GetTransactions` action whose promise has not been used. -/
def sample_get_transactions : GetTransactions :=
  { promise := { delivered := [] } }

/-- A `SubmitTransaction` action whose promise has not been used. -/
def sample_submit_transaction : SubmitTransaction :=
  { promise := { delivered := [] }, force_local_ := false, time_ := 1600000000000,
    expire_ := 1600000060, dest_ := { workchain := 0, addr := 1 }, value_ := 1000,
    bounce_ := true, all_balance_ := false, payload_ := Cell.mk [] [],
    private_key_ := { octets := [] }, msg_info_path_ := none }

/-! ## Properties of the header code -/

/-- C1: for each of the six read-only operations (IsConfirmed, GetParameters,
GetTransaction, GetTransactions, GetTransactionIds, GetCustodians) and every
value of its members, the virtual call `is_get_method()` returns true. -/
theorem read_only_is_get_method :
    (∀ a : IsConfirmed, (AnyAction.ofIsConfirmed a).is_get_method = true) ∧
    (∀ a : GetParameters, (AnyAction.ofGetParameters a).is_get_method = true) ∧
    (∀ a : GetTransaction, (AnyAction.ofGetTransaction a).is_get_method = true) ∧
    (∀ a : GetTransactions, (AnyAction.ofGetTransactions a).is_get_method = true) ∧
    (∀ a : GetTransactionIds, (AnyAction.ofGetTransactionIds a).is_get_method = true) ∧
    (∀ a : GetCustodians, (AnyAction.ofGetCustodians a).is_get_method = true) :=
  ⟨fun _ => rfl, fun _ => rfl, fun _ => rfl, fun _ => rfl, fun _ => rfl, fun _ => rfl⟩

/-- C2: for each of the three mutating operations (Constructor,
SubmitTransaction, ConfirmTransaction) and every value of its other members,
`is_get_method()` returns true if and only if `force_local_` is true. -/
theorem mutating_is_get_method_iff_force_local :
    (∀ a : Constructor,
      (AnyAction.ofConstructor a).is_get_method = true ↔ a.force_local_ = true) ∧
    (∀ a : SubmitTransaction,
      (AnyAction.ofSubmitTransaction a).is_get_method = true ↔ a.force_local_ = true) ∧
    (∀ a : ConfirmTransaction,
      (AnyAction.ofConfirmTransaction a).is_get_method = true ↔ a.force_local_ = true) :=
  ⟨fun _ => Iff.rfl, fun _ => Iff.rfl, fun _ => Iff.rfl⟩

/-- C3: for each of the six read-only operations and every value of its
members, `created_at()` returns 0 and `expires_at()` returns 4294967295, the
largest 32-bit unsigned value `2^32 - 1`. -/
theorem read_only_time_defaults :
    (∀ a : IsConfirmed, (AnyAction.ofIsConfirmed a).created_at = 0 ∧
      (AnyAction.ofIsConfirmed a).expires_at = 4294967295) ∧
    (∀ a : GetParameters, (AnyAction.ofGetParameters a).created_at = 0 ∧
      (AnyAction.ofGetParameters a).expires_at = 4294967295) ∧
    (∀ a : GetTransaction, (AnyAction.ofGetTransaction a).created_at = 0 ∧
      (AnyAction.ofGetTransaction a).expires_at = 4294967295) ∧
    (∀ a : GetTransactions, (AnyAction.ofGetTransactions a).created_at = 0 ∧
      (AnyAction.ofGetTransactions a).expires_at = 4294967295) ∧
    (∀ a : GetTransactionIds, (AnyAction.ofGetTransactionIds a).created_at = 0 ∧
      (AnyAction.ofGetTransactionIds a).expires_at = 4294967295) ∧
    (∀ a : GetCustodians, (AnyAction.ofGetCustodians a).created_at = 0 ∧
      (AnyAction.ofGetCustodians a).expires_at = 4294967295) ∧
    UINT32_MAX = 2 ^ 32 - 1 :=
  ⟨fun _ => ⟨rfl, rfl⟩, fun _ => ⟨rfl, rfl⟩, fun _ => ⟨rfl, rfl⟩, fun _ => ⟨rfl, rfl⟩,
    fun _ => ⟨rfl, rfl⟩, fun _ => ⟨rfl, rfl⟩, by decide⟩

/-- C4: for each of the three mutating operations holding creation time
`time_` and expiration time `expire_`, `created_at()` returns `time_` and
`expires_at()` returns `expire_` whatever value `force_local_` is given; in
particular the forced-local action, whose `is_get_method()` is true, reports
its own window. -/
theorem mutating_time_window :
    (∀ (a : Constructor) (fl : Bool),
      (AnyAction.ofConstructor { a with force_local_ := fl }).created_at = a.time_ ∧
      (AnyAction.ofConstructor { a with force_local_ := fl }).expires_at = a.expire_ ∧
      (AnyAction.ofConstructor { a with force_local_ := true }).is_get_method = true) ∧
    (∀ (a : SubmitTransaction) (fl : Bool),
      (AnyAction.ofSubmitTransaction { a with force_local_ := fl }).created_at = a.time_ ∧
      (AnyAction.ofSubmitTransaction { a with force_local_ := fl }).expires_at = a.expire_ ∧
      (AnyAction.ofSubmitTransaction { a with force_local_ := true }).is_get_method = true) ∧
    (∀ (a : ConfirmTransaction) (fl : Bool),
      (AnyAction.ofConfirmTransaction { a with force_local_ := fl }).created_at = a.time_ ∧
      (AnyAction.ofConfirmTransaction { a with force_local_ := fl }).expires_at = a.expire_ ∧
      (AnyAction.ofConfirmTransaction { a with force_local_ := true }).is_get_method = true) :=
  ⟨fun _ _ => ⟨rfl, rfl, rfl⟩, fun _ _ => ⟨rfl, rfl, rfl⟩, fun _ _ => ⟨rfl, rfl, rfl⟩⟩

/-- C7: for every action of any of the nine operations and every error status,
the virtual call `handle_error(error)` hands that same error to the promise of
the action, as one more outcome after those already handed over, and changes
nothing else; the one body of `Action<R>` serves all nine classes. -/
theorem handle_error_forwards_error (code : Int) (message : String) :
    (∀ a : Constructor, (AnyAction.ofConstructor a).handle_error (Status.Error code message) =
      AnyAction.ofConstructor { a with promise :=
        { delivered := a.promise.delivered ++ [Outcome.error (Status.Error code message)] } }) ∧
    (∀ a : SubmitTransaction,
      (AnyAction.ofSubmitTransaction a).handle_error (Status.Error code message) =
      AnyAction.ofSubmitTransaction { a with promise :=
        { delivered := a.promise.delivered ++ [Outcome.error (Status.Error code message)] } }) ∧
    (∀ a : ConfirmTransaction,
      (AnyAction.ofConfirmTransaction a).handle_error (Status.Error code message) =
      AnyAction.ofConfirmTransaction { a with promise :=
        { delivered := a.promise.delivered ++ [Outcome.error (Status.Error code message)] } }) ∧
    (∀ a : IsConfirmed, (AnyAction.ofIsConfirmed a).handle_error (Status.Error code message) =
      AnyAction.ofIsConfirmed { a with promise :=
        { delivered := a.promise.delivered ++ [Outcome.error (Status.Error code message)] } }) ∧
    (∀ a : GetParameters, (AnyAction.ofGetParameters a).handle_error (Status.Error code message) =
      AnyAction.ofGetParameters { a with promise :=
        { delivered := a.promise.delivered ++ [Outcome.error (Status.Error code message)] } }) ∧
    (∀ a : GetTransaction, (AnyAction.ofGetTransaction a).handle_error (Status.Error code message) =
      AnyAction.ofGetTransaction { a with promise :=
        { delivered := a.promise.delivered ++ [Outcome.error (Status.Error code message)] } }) ∧
    (∀ a : GetTransactions,
      (AnyAction.ofGetTransactions a).handle_error (Status.Error code message) =
      AnyAction.ofGetTransactions { a with promise :=
        { delivered := a.promise.delivered ++ [Outcome.error (Status.Error code message)] } }) ∧
    (∀ a : GetTransactionIds,
      (AnyAction.ofGetTransactionIds a).handle_error (Status.Error code message) =
      AnyAction.ofGetTransactionIds { a with promise :=
        { delivered := a.promise.delivered ++ [Outcome.error (Status.Error code message)] } }) ∧
    (∀ a : GetCustodians, (AnyAction.ofGetCustodians a).handle_error (Status.Error code message) =
      AnyAction.ofGetCustodians { a with promise :=
        { delivered := a.promise.delivered ++ [Outcome.error (Status.Error code message)] } }) :=
  ⟨fun _ => rfl, fun _ => rfl, fun _ => rfl, fun _ => rfl, fun _ => rfl, fun _ => rfl,
    fun _ => rfl, fun _ => rfl, fun _ => rfl⟩

/-- C9: the declared output schema of Constructor and of ConfirmTransaction is
empty: both `output_type()` functions return the empty list of parameters. -/
theorem output_type_empty :
    Constructor.output_type = [] ∧ ConfirmTransaction.output_type = [] ∧
    Constructor.output_type.length = 0 ∧ ConfirmTransaction.output_type.length = 0 :=
  ⟨rfl, rfl, rfl, rfl⟩

/-- C10: for each of the six read-only operations and every message, the
virtual call `handle_prepared(message)` returns the success status and leaves
the action unchanged, whatever the bodies of the three overrides of the
mutating operations are; those three are the only calls that reach an
override. -/
theorem read_only_handle_prepared (ov : PreparedOverrides) (m : Cell) :
    (∀ a : IsConfirmed,
      (AnyAction.ofIsConfirmed a).handle_prepared ov m = (Status.OK, AnyAction.ofIsConfirmed a)) ∧
    (∀ a : GetParameters,
      (AnyAction.ofGetParameters a).handle_prepared ov m =
        (Status.OK, AnyAction.ofGetParameters a)) ∧
    (∀ a : GetTransaction,
      (AnyAction.ofGetTransaction a).handle_prepared ov m =
        (Status.OK, AnyAction.ofGetTransaction a)) ∧
    (∀ a : GetTransactions,
      (AnyAction.ofGetTransactions a).handle_prepared ov m =
        (Status.OK, AnyAction.ofGetTransactions a)) ∧
    (∀ a : GetTransactionIds,
      (AnyAction.ofGetTransactionIds a).handle_prepared ov m =
        (Status.OK, AnyAction.ofGetTransactionIds a)) ∧
    (∀ a : GetCustodians,
      (AnyAction.ofGetCustodians a).handle_prepared ov m =
        (Status.OK, AnyAction.ofGetCustodians a)) ∧
    (∀ a : Constructor,
      (AnyAction.ofConstructor a).handle_prepared ov m =
        ((ov.ofConstructor a m).1, AnyAction.ofConstructor (ov.ofConstructor a m).2)) ∧
    (∀ a : SubmitTransaction,
      (AnyAction.ofSubmitTransaction a).handle_prepared ov m =
        ((ov.ofSubmitTransaction a m).1,
          AnyAction.ofSubmitTransaction (ov.ofSubmitTransaction a m).2)) ∧
    (∀ a : ConfirmTransaction,
      (AnyAction.ofConfirmTransaction a).handle_prepared ov m =
        ((ov.ofConfirmTransaction a m).1,
          AnyAction.ofConfirmTransaction (ov.ofConfirmTransaction a m).2)) :=
  ⟨fun _ => rfl, fun _ => rfl, fun _ => rfl, fun _ => rfl, fun _ => rfl, fun _ => rfl,
    fun _ => rfl, fun _ => rfl, fun _ => rfl⟩

/-! ## Properties of the result handlers -/

/-- Two values handed to the same promise state give the same state only when
they are equal. -/
theorem Promise_set_value_inj {R : Type} (p : Promise R) (a b : R)
    (h : p.set_value a = p.set_value b) : a = b := by
  simp [Promise.set_value] at h
  exact h

/-- Handing a value to a promise always changes its state. -/
theorem Promise_set_value_ne {R : Type} (p : Promise R) (a : R) : p ≠ p.set_value a := by
  intro h
  have := congrArg (fun q => q.delivered.length) h
  simp [Promise.set_value] at this

/-- A decoded transaction satisfies the entity invariant. -/
theorem decode_transaction_invariant (v : Value) (t : Transaction)
    (h : decode_transaction v = some t) : t.invariant = true := by
  unfold decode_transaction at h
  split at h
  · split at h
    · simp only at h
      split at h
      · cases h; assumption
      · cases h
    · cases h
  · cases h

/-- Every member of a decoded sequence satisfies the entity invariant. -/
theorem decode_transactions_invariant (vs : List Value) :
    ∀ ts : List Transaction, decode_transactions vs = some ts → ∀ t ∈ ts, t.invariant = true := by
  induction vs with
  | nil =>
      intro ts h t ht
      simp [decode_transactions] at h
      subst h
      cases ht
  | cons v vs ih =>
      intro ts h t ht
      unfold decode_transactions at h
      split at h
      · cases h
      · rename_i t0 h0
        split at h
        · cases h
        · rename_i ts0 h1
          cases h
          rcases List.mem_cons.mp ht with rfl | hmem
          · exact decode_transaction_invariant v _ h0
          · exact ih ts0 h1 t hmem

/-- The entity invariant gives the equation between signatures received and
set bits of the mask. -/
theorem Transaction_invariant_popcount (t : Transaction) (h : t.invariant = true) :
    t.signsReceived = popcount t.confirmationMask := by
  simp [Transaction.invariant] at h
  exact h.1


/-- C5: run locally, `IsConfirmed(mask, index)` returns success and hands to its
promise a Confirmation whose `confirmed` is true if and only if bit `index` of
`mask` is set, that is `mask / 2^index` is odd; `IsConfirmed(0b0101, 0)` gives
true and `IsConfirmed(0b0101, 1)` gives false. -/
theorem is_confirmed_bit_test :
    (∀ a : IsConfirmed, ∃ c : Confirmation,
      a.run_local = (Status.OK, { a with promise := a.promise.set_value c }) ∧
      (c.confirmed = true ↔ a.mask_ / 2 ^ a.index_ % 2 = 1)) ∧
    (∀ p : Promise Confirmation,
      IsConfirmed.run_local { promise := p, mask_ := 0b0101, index_ := 0 } =
        (Status.OK, { promise := p.set_value { confirmed := true }, mask_ := 0b0101, index_ := 0 })) ∧
    (∀ p : Promise Confirmation,
      IsConfirmed.run_local { promise := p, mask_ := 0b0101, index_ := 1 } =
        (Status.OK, { promise := p.set_value { confirmed := false }, mask_ := 0b0101, index_ := 1 })) := by
  refine ⟨fun a => ⟨{ confirmed := a.mask_.testBit a.index_ }, rfl, ?_⟩, fun p => ?_, fun p => ?_⟩
  · simp [Nat.testBit_to_div_mod]
  · simp [IsConfirmed.run_local, Ledger.isConfirmed, IsConfirmed.handle_result, decode_bool,
      Nat.testBit_to_div_mod]
  · simp [IsConfirmed.run_local, Ledger.isConfirmed, IsConfirmed.handle_result, decode_bool,
      Nat.testBit_to_div_mod]

/-- C6: every Transaction that `GetTransaction::handle_result` or
`GetTransactions::handle_result` hands to its promise has `signsReceived` equal
to the number of set bits of `confirmationMask`. -/
theorem delivered_transaction_signs_received (t : Transaction)
    (h : (∃ (a : GetTransaction) (result : List Value), a.delivers result t) ∨
      (∃ (a : GetTransactions) (result : List Value), a.delivers result t)) :
    t.signsReceived = popcount t.confirmationMask := by
  apply Transaction_invariant_popcount
  rcases h with ⟨a, result, h⟩ | ⟨a, result, ts, h, hmem⟩
  · unfold GetTransaction.delivers GetTransaction.handle_result at h
    split at h
    · split at h
      · rename_i v _ t0 h0
        have := Promise_set_value_inj _ _ _ h
        subst this
        exact decode_transaction_invariant v _ h0
      · exact absurd h (Promise_set_value_ne _ _)
    · exact absurd h (Promise_set_value_ne _ _)
  · unfold GetTransactions.handle_result at h
    split at h
    · split at h
      · rename_i items _ ts0 h0
        have := Promise_set_value_inj _ _ _ h
        subst this
        exact decode_transactions_invariant items _ h0 t hmem
      · exact absurd h (Promise_set_value_ne _ _)
    · exact absurd h (Promise_set_value_ne _ _)

/-- Witness of C6: the sample transaction is delivered by both handlers and
has two signatures for the two set bits of its mask. -/
theorem delivered_transaction_signs_received_witness :
    sample_get_transaction.delivers [sample_raw_transaction] sample_transaction ∧
    sample_get_transactions.delivers [Value.array [sample_raw_transaction]] sample_transaction ∧
    sample_transaction.signsReceived = popcount sample_transaction.confirmationMask ∧
    popcount sample_transaction.confirmationMask = 2 :=
  ⟨rfl, ⟨[sample_transaction], rfl, List.mem_singleton.mpr rfl⟩,
    delivered_transaction_signs_received sample_transaction
      (Or.inl ⟨sample_get_transaction, [sample_raw_transaction], rfl⟩),
    by decide⟩

/-- C8, amended: `SubmitTransaction::handle_result` returns a failure status and
hands nothing to the promise whenever the list of raw values is empty, has more
than one element, or its single element is not an integer; when the list holds
exactly one integer `v` in the range of an unsigned 64-bit value it returns
success and hands over a TransactionSent with `transactionId = v`. -/
theorem submit_handle_result_decoding :
    (∀ (a : SubmitTransaction) (result : List Value),
      (result = [] ∨ 2 ≤ result.length ∨ ∃ x, result = [x] ∧ ∀ v : Int, x ≠ Value.int v) →
      (a.handle_result result).1.is_error = true ∧ (a.handle_result result).2 = a) ∧
    (∀ (a : SubmitTransaction) (v : Int), 0 ≤ v → v < 2 ^ 64 →
      ∃ t : TransactionSent,
        a.handle_result [Value.int v] = (Status.OK, { a with promise := a.promise.set_value t }) ∧
        (t.transactionId : Int) = v ∧ t.transactionId < 2 ^ 64) := by
  constructor
  · intro a result h
    rcases h with rfl | h | ⟨x, rfl, hx⟩
    · exact ⟨rfl, rfl⟩
    · match result, h with
      | _ :: _ :: _, _ => exact ⟨rfl, rfl⟩
    · cases x with
      | int v => exact absurd rfl (hx v)
      | bool b => exact ⟨rfl, rfl⟩
      | address s => exact ⟨rfl, rfl⟩
      | tuple fs => exact ⟨rfl, rfl⟩
      | array xs => exact ⟨rfl, rfl⟩
  · intro a v h0 h1
    have h2 : v < ((2 ^ 64 : Nat) : Int) := by exact_mod_cast h1
    refine ⟨{ transactionId := v.toNat }, ?_, Int.toNat_of_nonneg h0, ?_⟩
    swap
    · show v.toNat < 2 ^ 64
      omega
    simp only [SubmitTransaction.handle_result, decode_uint, h0, h2, and_self, if_true]

/-- Witness of C8, amended: an empty list and a boolean are refused, and the
integer 42 is delivered as transaction id 42. -/
theorem submit_handle_result_decoding_witness :
    ((sample_submit_transaction.handle_result []).1.is_error = true ∧
      (sample_submit_transaction.handle_result []).2 = sample_submit_transaction) ∧
    ((sample_submit_transaction.handle_result [Value.bool true]).1.is_error = true ∧
      (sample_submit_transaction.handle_result [Value.bool true]).2 = sample_submit_transaction) ∧
    (∃ t : TransactionSent,
      sample_submit_transaction.handle_result [Value.int 42] =
        (Status.OK, { sample_submit_transaction with
          promise := sample_submit_transaction.promise.set_value t }) ∧
      (t.transactionId : Int) = 42 ∧ t.transactionId < 2 ^ 64) :=
  ⟨submit_handle_result_decoding.1 sample_submit_transaction [] (Or.inl rfl),
    submit_handle_result_decoding.1 sample_submit_transaction [Value.bool true]
      (Or.inr (Or.inr ⟨Value.bool true, rfl, fun _ h => Value.noConfusion h⟩)),
    submit_handle_result_decoding.2 sample_submit_transaction 42 (by decide) (by decide)⟩

/-- Counterexample to C8 as stated: the list holding exactly the integer `2^64`
is refused; the handler returns the decode failure and hands no TransactionSent
to the promise, so none with `transactionId = 2^64` is delivered.  No value of
the `td::uint64` member equals `2^64` in the first place. -/
theorem submit_handle_result_out_of_range :
    sample_submit_transaction.handle_result [Value.int 18446744073709551616] =
      (decode_error, sample_submit_transaction) ∧
    (sample_submit_transaction.handle_result [Value.int 18446744073709551616]).1.is_error = true ∧
    (¬ ∃ t : TransactionSent,
      (sample_submit_transaction.handle_result [Value.int 18446744073709551616]).2.promise =
        sample_submit_transaction.promise.set_value t) ∧
    (∀ t : TransactionSent, t.transactionId < 2 ^ 64 →
      (t.transactionId : Int) ≠ 18446744073709551616) :=
  ⟨rfl, rfl, fun ⟨t, h⟩ => Promise_set_value_ne _ t h, fun t ht h => by omega⟩

end msig

end app
